import Mathlib

/-!
Verification of the cost-analysis logic in `src/prompt_caching_demo.py`.

Modelling conventions:
* Token counts are natural numbers (the API usage counters are non-negative
  integers).
* Dollar amounts and per-million rates are rationals (`ℚ`), the exact
  arithmetic the script's decimal literals denote.
* Python raises `ZeroDivisionError` on division by zero, so the inline
  savings computation is embedded as `Except String _`.
-/

/-- A usage record as returned by the API and consumed by
`print_cache_analysis` (fields named after the Python attributes). -/
structure Usage where
  input_tokens : ℕ
  cache_read_input_tokens : ℕ
  cache_creation_input_tokens : ℕ
  output_tokens : ℕ
deriving DecidableEq, Repr

/-- `calculate_token_cost` (lines 43-45): `(tokens / 1_000_000) * rate_per_million`. -/
def calculate_token_cost (tokens : ℕ) (rate_per_million : ℚ) : ℚ :=
  ((tokens : ℚ) / 1000000) * rate_per_million

/-- `base_rate = 0.80` (line 63). -/
def base_rate : ℚ := 0.80

/-- `cache_read_rate = 0.08` (line 64). -/
def cache_read_rate : ℚ := 0.08

/-- `cache_write_rate = 1.00` (line 91). -/
def cache_write_rate : ℚ := 1.00

/-- Cache hit / miss classification outcome (spec section 4.1). -/
inductive CacheStatus where
  | cacheHit
  | cacheMiss
deriving DecidableEq, Repr

/-- The branch condition of `print_cache_analysis` (line 56): cache hit iff
`cache_read_input_tokens > 0` (the `hasattr` test is always true for a usage
record carrying the field). -/
def classify (usage : Usage) : CacheStatus :=
  if usage.cache_read_input_tokens > 0 then .cacheHit else .cacheMiss

/-- `cost_without_cache` (lines 66-68): all input tokens at the base rate. -/
def cost_without_cache (usage : Usage) : ℚ :=
  calculate_token_cost (usage.input_tokens + usage.cache_read_input_tokens) base_rate

/-- `cost_with_cache` (lines 69-72): fresh tokens at base rate plus cached
tokens at the cache-read rate. -/
def cost_with_cache (usage : Usage) : ℚ :=
  calculate_token_cost usage.input_tokens base_rate +
    calculate_token_cost usage.cache_read_input_tokens cache_read_rate

/-- `cost_without_cache` generalised over the pricing table, as the spec's
`costWithoutCache(usage, pricing)`; the script instantiates `baseR` with
`base_rate` at line 67. -/
def cost_without_cache_at (usage : Usage) (baseR : ℚ) : ℚ :=
  calculate_token_cost (usage.input_tokens + usage.cache_read_input_tokens) baseR

/-- `cost_with_cache` generalised over the pricing table, as the spec's
`costWithCache(usage, pricing)` on a cache hit; the script instantiates the
rates at lines 69-72. -/
def cost_with_cache_at (usage : Usage) (baseR readR : ℚ) : ℚ :=
  calculate_token_cost usage.input_tokens baseR +
    calculate_token_cost usage.cache_read_input_tokens readR

/-- The inline savings computation of lines 66-75 applied to arbitrary token
counts: cost without cache, cost with cache, then
`savings_percent = (savings / cost_without_cache) * 100`. Python float
division raises `ZeroDivisionError` when the divisor is zero, so the result
is `Except`. Returns the pair `(savings, savings_percent)` on success. -/
def savings_op (input_toks cache_read_toks : ℕ) : Except String (ℚ × ℚ) :=
  if calculate_token_cost (input_toks + cache_read_toks) base_rate = 0 then
    .error "ZeroDivisionError"
  else
    .ok (calculate_token_cost (input_toks + cache_read_toks) base_rate -
        (calculate_token_cost input_toks base_rate +
          calculate_token_cost cache_read_toks cache_read_rate),
      (calculate_token_cost (input_toks + cache_read_toks) base_rate -
        (calculate_token_cost input_toks base_rate +
          calculate_token_cost cache_read_toks cache_read_rate)) /
        calculate_token_cost (input_toks + cache_read_toks) base_rate * 100)

/-- The values computed and printed by `print_cache_analysis`, by branch. -/
inductive CacheAnalysis where
  | hit (cost_without cost_with savings savings_percent : ℚ)
  | missWithCreation (creation_cost : ℚ)
  | missNoCreation
deriving DecidableEq, Repr

/-- `print_cache_analysis` (lines 47-99), reduced to the numbers it computes:
on the hit branch (line 56) the cost comparison and savings percentage
(lines 66-75, with Python's `ZeroDivisionError` made explicit); on the miss
branch the one-time creation cost (line 93) when
`cache_creation_input_tokens > 0` (line 86), otherwise nothing. -/
def print_cache_analysis (usage : Usage) : Except String CacheAnalysis :=
  if usage.cache_read_input_tokens > 0 then
    if cost_without_cache usage = 0 then .error "ZeroDivisionError"
    else .ok (.hit (cost_without_cache usage) (cost_with_cache usage)
      (cost_without_cache usage - cost_with_cache usage)
      ((cost_without_cache usage - cost_with_cache usage) /
        cost_without_cache usage * 100))
  else if usage.cache_creation_input_tokens > 0 then
    .ok (.missWithCreation
      (calculate_token_cost usage.cache_creation_input_tokens cache_write_rate))
  else
    .ok .missNoCreation

/-- The increment added to `total_saved` in `demonstrate_caching`
(lines 161-168): cached tokens at `0.80` minus cached tokens at `0.08`. -/
def tracked_savings_increment (usage : Usage) : ℚ :=
  calculate_token_cost usage.cache_read_input_tokens 0.80 -
    calculate_token_cost usage.cache_read_input_tokens 0.08

/-- A conversation message with a role and a content string, as appended to
`conversation_history` in `interactive_mode`. -/
structure Message where
  role : String
  content : String
deriving DecidableEq, Repr

/-- One successful turn of `interactive_mode` (lines 237-243): append the
user message and the assistant reply, then truncate to the last 10 entries
(`conversation_history[-10:]`) when the list exceeds 10. -/
def history_step (hist : List Message) (user_input ai_response : String) :
    List Message :=
  if 10 < (hist ++ [Message.mk "user" user_input,
      Message.mk "assistant" ai_response]).length then
    (hist ++ [Message.mk "user" user_input,
        Message.mk "assistant" ai_response]).drop
      ((hist ++ [Message.mk "user" user_input,
          Message.mk "assistant" ai_response]).length - 10)
  else
    hist ++ [Message.mk "user" user_input, Message.mk "assistant" ai_response]

/-- The conversation history after a sequence of turns of `interactive_mode`,
starting from the empty history of line 200. -/
def run_interactive_history (turns : List (String × String)) : List Message :=
  turns.foldl (fun h t => history_step h t.1 t.2) []

/-- The action `main` (lines 251-276) ends up taking. -/
inductive MainAction where
  | reportMissingKey
  | runDemo
  | runInteractive
  | sayGoodbye
  | reportInvalidChoice
deriving DecidableEq, Repr

/-- Python truthiness of `ANTHROPIC_API_KEY`: falsy when the variable is
unset (`os.getenv` returns `None`) or set to the empty string. -/
def key_present (apiKey : Option String) : Bool :=
  match apiKey with
  | none => false
  | some k => decide (k ≠ "")

namespace Demo

/-- `main` (lines 251-276): with a falsy key it prints the error and returns
before reading a menu choice (lines 255-260); otherwise it dispatches on the
choice. -/
def main (apiKey : Option String) (choice : String) : MainAction :=
  if !(key_present apiKey) then .reportMissingKey
  else if choice = "1" then .runDemo
  else if choice = "2" then .runInteractive
  else if choice = "3" then .sayGoodbye
  else .reportInvalidChoice

end Demo

/-- Which `main` actions issue an outbound API request: only the two demo
modes call `client.messages.create`. -/
def makes_api_request : MainAction → Bool
  | .runDemo => true
  | .runInteractive => true
  | _ => false

/-! ## Helper lemmas -/

/-- A single `interactive_mode` turn always leaves at most 10 entries:
either the appended list already fits, or the slice keeps exactly 10. -/
theorem history_step_length_le (hist : List Message) (u a : String) :
    (history_step hist u a).length ≤ 10 := by
  unfold history_step
  split_ifs with h
  · rw [List.length_drop]
    omega
  · omega

/-- Folding `history_step` over any list of turns preserves the 10-entry
bound on the history. -/
theorem foldl_history_length_le (turns : List (String × String)) :
    ∀ hist : List Message, hist.length ≤ 10 →
      (turns.foldl (fun h t => history_step h t.1 t.2) hist).length ≤ 10 := by
  induction turns with
  | nil => intro hist h; simpa using h
  | cons t ts ih =>
      intro hist _
      exact ih _ (history_step_length_le hist t.1 t.2)

/-- On a cache hit the cost without cache is strictly positive. -/
theorem cost_without_cache_pos (usage : Usage)
    (h : 0 < usage.cache_read_input_tokens) : 0 < cost_without_cache usage := by
  unfold cost_without_cache calculate_token_cost base_rate
  have hn : (0 : ℚ) <
      ((usage.input_tokens + usage.cache_read_input_tokens : ℕ) : ℚ) := by
    exact_mod_cast Nat.lt_of_lt_of_le h (Nat.le_add_left _ _)
  apply mul_pos (div_pos hn (by norm_num)) (by norm_num)

/-! ## Claim theorems -/

/-- Claim C4 (confirmed): `classify` returns `cacheHit` exactly when
`cache_read_input_tokens > 0` and `cacheMiss` exactly when it is zero;
`classify` is a total function with no error conditions. -/
theorem classify_hit_iff (usage : Usage) :
    (classify usage = CacheStatus.cacheHit ↔ 0 < usage.cache_read_input_tokens) ∧
    (classify usage = CacheStatus.cacheMiss ↔ usage.cache_read_input_tokens = 0) := by
  unfold classify
  rcases Nat.eq_zero_or_pos usage.cache_read_input_tokens with h | h
  · simp [h]
  · simp [h]
    omega

/-- Claim C5 (confirmed): `cost_without_cache` charges all input tokens
(fresh plus cached) at the base rate `0.80` per million, and on a cache hit
`cost_with_cache` charges fresh tokens at `0.80` and cached tokens at
`0.08` per million. -/
theorem cost_formulas (usage : Usage) :
    cost_without_cache usage =
      ((usage.input_tokens : ℚ) + usage.cache_read_input_tokens) / 1000000 * 0.80 ∧
    (classify usage = CacheStatus.cacheHit →
      cost_with_cache usage =
        (usage.input_tokens : ℚ) / 1000000 * 0.80 +
          (usage.cache_read_input_tokens : ℚ) / 1000000 * 0.08) := by
  constructor
  · unfold cost_without_cache calculate_token_cost base_rate
    push_cast
    ring
  · intro _
    unfold cost_with_cache calculate_token_cost base_rate cache_read_rate
    ring

/-- Witness for claim C5 at `inputTokens = 100`, `cacheReadTokens = 9000`. -/
theorem cost_formulas_witness :
    classify ⟨100, 9000, 0, 0⟩ = CacheStatus.cacheHit ∧
    cost_with_cache ⟨100, 9000, 0, 0⟩ =
      (100 : ℚ) / 1000000 * 0.80 + (9000 : ℚ) / 1000000 * 0.08 :=
  ⟨by decide, (cost_formulas ⟨100, 9000, 0, 0⟩).2 (by decide)⟩

/-- Claim C6 (confirmed): on the worked example `inputTokens = 100`,
`cacheReadTokens = 9000`, the analysis reports cost without cache `0.00728`,
cost with cache `0.00080`, savings `0.00648`, and a savings percentage of
`8100/91 ≈ 89.01`, which lies in `[89, 89.05)` and so prints as `89.0%`. -/
theorem example_hit_numbers :
    print_cache_analysis ⟨100, 9000, 0, 0⟩ =
      Except.ok (CacheAnalysis.hit 0.00728 0.00080 0.00648 (8100 / 91)) ∧
    (89 : ℚ) ≤ 8100 / 91 ∧ (8100 / 91 : ℚ) < 89.05 := by
  refine ⟨?_, by norm_num, by norm_num⟩
  norm_num [print_cache_analysis, cost_without_cache, cost_with_cache,
    calculate_token_cost, base_rate, cache_read_rate]

/-- Claim C3 (confirmed): with cached tokens present and a cache-read rate
below the base rate, the cost with cache never exceeds the cost without
cache. -/
theorem cost_with_cache_le (usage : Usage) (baseR readR : ℚ)
    (hread : 0 < usage.cache_read_input_tokens) (hrate : readR < baseR) :
    cost_with_cache_at usage baseR readR ≤ cost_without_cache_at usage baseR := by
  unfold cost_with_cache_at cost_without_cache_at calculate_token_cost
  have h0 : (0 : ℚ) ≤ (usage.cache_read_input_tokens : ℚ) / 1000000 :=
    by positivity
  have h1 : (0 : ℚ) ≤
      (usage.cache_read_input_tokens : ℚ) / 1000000 * (baseR - readR) :=
    mul_nonneg h0 (by linarith)
  have key : ((usage.input_tokens + usage.cache_read_input_tokens : ℕ) : ℚ) /
        1000000 * baseR -
      ((usage.input_tokens : ℚ) / 1000000 * baseR +
        (usage.cache_read_input_tokens : ℚ) / 1000000 * readR) =
      (usage.cache_read_input_tokens : ℚ) / 1000000 * (baseR - readR) := by
    push_cast
    ring
  linarith [key, h1]

/-- Witness for claim C3 at `inputTokens = 100`, `cacheReadTokens = 9000`,
`baseRate = 0.80`, `cacheReadRate = 0.08`. -/
theorem cost_with_cache_le_witness :
    0 < (Usage.mk 100 9000 0 0).cache_read_input_tokens ∧
    (0.08 : ℚ) < 0.80 ∧
    cost_with_cache_at ⟨100, 9000, 0, 0⟩ 0.80 0.08 ≤
      cost_without_cache_at ⟨100, 9000, 0, 0⟩ 0.80 :=
  ⟨by decide, by norm_num,
    cost_with_cache_le ⟨100, 9000, 0, 0⟩ 0.80 0.08 (by decide) (by norm_num)⟩

/-- Claim C2 (confirmed): starting from the empty history, after any
sequence of turns (each appending one user and one assistant entry and then
truncating) the conversation history has at most 10 entries. -/
theorem interactive_history_bounded (turns : List (String × String)) :
    (run_interactive_history turns).length ≤ 10 := by
  unfold run_interactive_history
  exact foldl_history_length_le turns [] (by simp)

/-- Claim C7 (confirmed): on a cache miss with cache-creation tokens, the
analysis reports a creation cost of `cacheCreationTokens / 1e6 *
cacheWriteRate`; and `9000` creation tokens at the write rate `1.00` cost
`0.009`. -/
theorem creation_cost_correct (usage : Usage)
    (hmiss : classify usage = CacheStatus.cacheMiss)
    (hcreate : 0 < usage.cache_creation_input_tokens) :
    print_cache_analysis usage =
      Except.ok (CacheAnalysis.missWithCreation
        ((usage.cache_creation_input_tokens : ℚ) / 1000000 * cache_write_rate)) ∧
    (usage.cache_creation_input_tokens = 9000 →
      (usage.cache_creation_input_tokens : ℚ) / 1000000 * cache_write_rate =
        0.009) := by
  have hread : ¬ 0 < usage.cache_read_input_tokens := by
    intro h
    simp [classify, h] at hmiss
  constructor
  · unfold print_cache_analysis
    rw [if_neg hread, if_pos hcreate]
    rfl
  · intro h9
    rw [h9]
    norm_num [cache_write_rate]

/-- Witness for claim C7 at `cacheCreationTokens = 9000` with zero cached
tokens read. -/
theorem creation_cost_correct_witness :
    classify ⟨50, 0, 9000, 0⟩ = CacheStatus.cacheMiss ∧
    0 < (Usage.mk 50 0 9000 0).cache_creation_input_tokens ∧
    print_cache_analysis ⟨50, 0, 9000, 0⟩ =
      Except.ok (CacheAnalysis.missWithCreation
        ((9000 : ℚ) / 1000000 * cache_write_rate)) :=
  ⟨by decide, by decide,
    (creation_cost_correct ⟨50, 0, 9000, 0⟩ (by decide) (by decide)).1⟩

/-- Claim C9 (confirmed): under the cache-hit precondition
`cacheReadTokens > 0`, the cost without cache is strictly positive, so the
savings division never divides by zero and the analysis always returns a
result rather than the division-by-zero error. -/
theorem savings_division_safe (usage : Usage)
    (h : 0 < usage.cache_read_input_tokens) :
    0 < cost_without_cache usage ∧
    ∃ r, print_cache_analysis usage = Except.ok r := by
  have hpos := cost_without_cache_pos usage h
  refine ⟨hpos, ?_⟩
  unfold print_cache_analysis
  rw [if_pos h, if_neg hpos.ne']
  exact ⟨_, rfl⟩

/-- Witness for claim C9 at `inputTokens = 100`, `cacheReadTokens = 9000`. -/
theorem savings_division_safe_witness :
    0 < (Usage.mk 100 9000 0 0).cache_read_input_tokens ∧
    0 < cost_without_cache ⟨100, 9000, 0, 0⟩ ∧
    ∃ r, print_cache_analysis ⟨100, 9000, 0, 0⟩ = Except.ok r :=
  ⟨by decide, savings_division_safe ⟨100, 9000, 0, 0⟩ (by decide)⟩

/-- Claim C10 (confirmed): for a cache-hit record, the increment that
`demonstrate_caching` adds to `total_saved` equals the per-request savings
printed by `print_cache_analysis`, and both equal
`cacheReadTokens * (0.80 - 0.08) / 1e6`. -/
theorem tracked_increment_matches_printed_savings (usage : Usage)
    (_h : classify usage = CacheStatus.cacheHit) :
    tracked_savings_increment usage =
      cost_without_cache usage - cost_with_cache usage ∧
    tracked_savings_increment usage =
      (usage.cache_read_input_tokens : ℚ) * (0.80 - 0.08) / 1000000 := by
  constructor
  · unfold tracked_savings_increment cost_without_cache cost_with_cache
      calculate_token_cost base_rate cache_read_rate
    push_cast
    ring
  · unfold tracked_savings_increment calculate_token_cost
    ring

/-- Witness for claim C10 at `cacheReadTokens = 9000`. -/
theorem tracked_increment_matches_printed_savings_witness :
    classify ⟨100, 9000, 0, 0⟩ = CacheStatus.cacheHit ∧
    tracked_savings_increment ⟨100, 9000, 0, 0⟩ =
      cost_without_cache ⟨100, 9000, 0, 0⟩ - cost_with_cache ⟨100, 9000, 0, 0⟩ :=
  ⟨by decide,
    (tracked_increment_matches_printed_savings ⟨100, 9000, 0, 0⟩ (by decide)).1⟩

/-- Counterexample to claim C1: at a usage record with no input and no
cached tokens, the cost without cache is `0` and the savings computation of
lines 74-75 raises `ZeroDivisionError` instead of returning a savings
percentage of `0`. -/
theorem savings_zero_divisor_raises :
    cost_without_cache ⟨0, 0, 0, 0⟩ = 0 ∧
    savings_op 0 0 = Except.error "ZeroDivisionError" := by
  constructor
  · norm_num [cost_without_cache, calculate_token_cost, base_rate]
  · have h0 : calculate_token_cost (0 + 0) base_rate = 0 := by
      norm_num [calculate_token_cost, base_rate]
    unfold savings_op
    rw [if_pos h0]

/-- Amended claim C1: the unguarded division of lines 74-75 raises rather
than returning `0` when the cost without cache is `0`; however the code only
reaches it with `cacheReadTokens > 0`, where the cost without cache is
nonzero and the computation returns a savings pair without exception. -/
theorem savings_op_ok_on_hit (input_toks cache_read_toks : ℕ)
    (h : 0 < cache_read_toks) :
    ∃ s p, savings_op input_toks cache_read_toks = Except.ok (s, p) := by
  have hpos : 0 < cost_without_cache ⟨input_toks, cache_read_toks, 0, 0⟩ :=
    cost_without_cache_pos ⟨input_toks, cache_read_toks, 0, 0⟩ h
  have hne : calculate_token_cost (input_toks + cache_read_toks) base_rate ≠ 0 :=
    hpos.ne'
  unfold savings_op
  rw [if_neg hne]
  exact ⟨_, _, rfl⟩

/-- Witness for the amended claim C1 at `inputTokens = 100`,
`cacheReadTokens = 9000`. -/
theorem savings_op_ok_on_hit_witness :
    0 < 9000 ∧ ∃ s p, savings_op 100 9000 = Except.ok (s, p) :=
  ⟨by decide, savings_op_ok_on_hit 100 9000 (by decide)⟩

/-- Claim C8 (confirmed): when the API key is absent from the environment,
`main` reports the missing key and returns before the mode menu, issuing no
outbound API request, for every possible menu choice. -/
theorem missing_key_aborts (choice : String) :
    Demo.main none choice = MainAction.reportMissingKey ∧
    makes_api_request (Demo.main none choice) = false := by
  constructor <;> rfl
